import Mathlib

/-!
Verification of the news-ingestion batch job in `src/main.py`.

The program has two routines:
  * `fetch_newsapi_data(api_key, query, page_size)` — issues one HTTP GET to
    NewsAPI and returns the article list (lines 56-79 of `main.py`);
  * `write_news_to_redshift(articles, redshift_config)` — loads the articles
    into the `news_articles` table (lines 81-146 of `main.py`).

The embedding below is a shallow model of those routines.  Python exceptions
become `Except PyError`; the HTTP layer and the database are explicit
environment/state parameters; Python's per-process string `hash` is a
parameter `h : String → Int`.  The SQL statements' semantics
(`CREATE TABLE IF NOT EXISTS`, `INSERT ... ON CONFLICT (id) DO NOTHING`,
`commit`, `rollback`) are modelled on an explicit table state.
-/

namespace AwsBatch

/-- Python exception classes that the program can raise or catch. -/
inductive PyError
  | typeError
  | keyError
  | valueError
  | requestException
  | httpError
  | operationalError
  | unboundLocalError
deriving DecidableEq, Repr

/-! ## Model of Python `str(n)` for a nonnegative integer

`write_news_to_redshift` stores `str(article_id)` as the primary key, so we
need a decimal printer together with its injectivity. -/

/-- The decimal digit character for `d < 10`. -/
def digitChar (d : Nat) : Char := Char.ofNat (48 + d)

/-- Decimal digits of `n`, most significant first.  Structural recursion on a
fuel bound (any fuel above `n` yields the digits of `n`). -/
def pyStrAux : Nat → Nat → List Char
  | 0, _ => []
  | fuel + 1, n =>
    if n < 10 then [digitChar n]
    else pyStrAux fuel (n / 10) ++ [digitChar (n % 10)]

/-- Model of Python `str(n)` on a nonnegative integer: the decimal numeral. -/
def pyStr (n : Nat) : String := String.mk (pyStrAux (n + 1) n)

/-- Numeric value of a digit character. -/
def digitValC (c : Char) : Nat := c.toNat - 48

/-- Value of a decimal digit string, most significant digit first. -/
def decVal (cs : List Char) : Nat :=
  cs.foldl (fun acc c => 10 * acc + digitValC c) 0

theorem digitValC_digitChar (d : Nat) (hd : d < 10) : digitValC (digitChar d) = d := by
  interval_cases d <;> rfl

theorem decVal_append_singleton (cs : List Char) (c : Char) :
    decVal (cs ++ [c]) = 10 * decVal cs + digitValC c := by
  simp [decVal, List.foldl_append]

/-- The decimal printer is inverted by the decimal reader, for any
sufficient fuel. -/
theorem decVal_pyStrAux (fuel : Nat) :
    ∀ n, n < fuel → decVal (pyStrAux fuel n) = n := by
  induction fuel with
  | zero => intro n hn; omega
  | succ fuel ih =>
    intro n hn
    rw [pyStrAux]
    by_cases h : n < 10
    · rw [if_pos h]
      simp [decVal, digitValC_digitChar n h]
    · rw [if_neg h, decVal_append_singleton,
        ih (n / 10) (by omega),
        digitValC_digitChar _ (Nat.mod_lt _ (by omega))]
      omega

/-- Distinct nonnegative integers print as distinct strings. -/
theorem pyStr_injective {m n : Nat} (hmn : pyStr m = pyStr n) : m = n := by
  have hdata : pyStrAux (m + 1) m = pyStrAux (n + 1) n :=
    congrArg String.data hmn
  have hm := decVal_pyStrAux (m + 1) m (by omega)
  rw [hdata, decVal_pyStrAux (n + 1) n (by omega)] at hm
  exact hm.symm

/-! ## Model of `datetime.strptime(s, "%Y-%m-%dT%H:%M:%SZ")`

Line 124 of `main.py` parses `article["publishedAt"]` with the fixed format
string; a string that does not match raises `ValueError`. -/

/-- A parsed `datetime` value (date and time components). -/
structure PyDateTime where
  year : Nat
  month : Nat
  day : Nat
  hour : Nat
  minute : Nat
  second : Nat
deriving DecidableEq, Repr

def isLeapYear (y : Nat) : Bool := (y % 4 == 0 && y % 100 != 0) || y % 400 == 0

def daysInMonth (y m : Nat) : Nat :=
  if m == 2 then (if isLeapYear y then 29 else 28)
  else if m == 4 || m == 6 || m == 9 || m == 11 then 30
  else 31

def isDigitCh (c : Char) : Bool := 48 ≤ c.toNat && c.toNat ≤ 57

/-- Whether a character is a decimal digit between `lo` and `hi`. -/
def isDigitRange (lo hi : Char) (c : Char) : Bool :=
  lo.toNat ≤ c.toNat && c.toNat ≤ hi.toNat

def read4 (a b c d : Char) : Nat :=
  1000 * digitValC a + 100 * digitValC b + 10 * digitValC c + digitValC d

/-- The `datetime` constructor: range-checks every component and raises
`ValueError` on an out-of-range value (year 1-9999, day bounded by the
month's length, second at most 59 — leap seconds 60 and 61 pass the
`%S` pattern but are rejected here). -/
def mkDateTime (y mo d hh mi ss : Nat) : Except PyError PyDateTime :=
  if 1 ≤ y ∧ y ≤ 9999 ∧ 1 ≤ mo ∧ mo ≤ 12 ∧ 1 ≤ d ∧ d ≤ daysInMonth y mo ∧
      hh ≤ 23 ∧ mi ≤ 59 ∧ ss ≤ 59
  then .ok ⟨y, mo, d, hh, mi, ss⟩ else .error .valueError

/-! CPython's `_strptime` compiles the format string into a regular
expression; for `"%Y-%m-%dT%H:%M:%SZ"` (Python 3.11) that expression is

  `(\d\d\d\d)-(1[0-2]|0[1-9]|[1-9])-(3[0-1]|[1-2]\d|0[1-9]|[1-9]| [1-9])`
  `T(2[0-3]|[0-1]\d|\d):([0-5]\d|\d):(6[0-1]|[0-5]\d|\d)Z`

compiled with `IGNORECASE`, matched at the start of the input, and any
unconverted trailing data raises `ValueError`.  Note the leniency: month,
day, hour, minute and second also accept a single digit, and the day also
accepts a space-padded form.  The combinators below mirror that expression:
one matcher per alternative, alternatives tried in the library's order,
with backtracking into the rest of the pattern. -/

/-- A two-character field alternative: leading character of class `p`,
second character of class `q`, read as a two-digit number. -/
def alt2 (p q : Char → Bool) : List Char → Option (Nat × List Char)
  | c1 :: c2 :: rest =>
    if p c1 && q c2 then some (10 * digitValC c1 + digitValC c2, rest)
    else none
  | _ => none

/-- A one-character field alternative of class `p`. -/
def alt1 (p : Char → Bool) : List Char → Option (Nat × List Char)
  | c :: rest => if p c then some (digitValC c, rest) else none
  | _ => none

/-- A space-padded field alternative: a blank then one digit of class `p`
(the `%d` pattern's last alternative). -/
def altSpace1 (p : Char → Bool) : List Char → Option (Nat × List Char)
  | c1 :: c2 :: rest =>
    if c1 == ' ' && p c2 then some (digitValC c2, rest) else none
  | _ => none

/-- Ordered alternation with backtracking: try each alternative in turn and
continue with `k`; if the continuation fails, fall through to the next
alternative, as the compiled regular expression does. -/
def tryAlts {α : Type} (k : Nat → List Char → Option α) :
    List (List Char → Option (Nat × List Char)) → List Char → Option α
  | [], _ => none
  | a :: alts, cs =>
    match a cs with
    | some (v, rest) =>
      match k v rest with
      | some r => some r
      | none => tryAlts k alts cs
    | none => tryAlts k alts cs

/-- The `%m` pattern `1[0-2]|0[1-9]|[1-9]`. -/
def monthAlts : List (List Char → Option (Nat × List Char)) :=
  [alt2 (· == '1') (isDigitRange '0' '2'),
   alt2 (· == '0') (isDigitRange '1' '9'),
   alt1 (isDigitRange '1' '9')]

/-- The `%d` pattern `3[0-1]|[1-2]\d|0[1-9]|[1-9]| [1-9]`. -/
def dayAlts : List (List Char → Option (Nat × List Char)) :=
  [alt2 (· == '3') (isDigitRange '0' '1'),
   alt2 (isDigitRange '1' '2') isDigitCh,
   alt2 (· == '0') (isDigitRange '1' '9'),
   alt1 (isDigitRange '1' '9'),
   altSpace1 (isDigitRange '1' '9')]

/-- The `%H` pattern `2[0-3]|[0-1]\d|\d`. -/
def hourAlts : List (List Char → Option (Nat × List Char)) :=
  [alt2 (· == '2') (isDigitRange '0' '3'),
   alt2 (isDigitRange '0' '1') isDigitCh,
   alt1 isDigitCh]

/-- The `%M` pattern `[0-5]\d|\d`. -/
def minuteAlts : List (List Char → Option (Nat × List Char)) :=
  [alt2 (isDigitRange '0' '5') isDigitCh,
   alt1 isDigitCh]

/-- The `%S` pattern `6[0-1]|[0-5]\d|\d`. -/
def secondAlts : List (List Char → Option (Nat × List Char)) :=
  [alt2 (· == '6') (isDigitRange '0' '1'),
   alt2 (isDigitRange '0' '5') isDigitCh,
   alt1 isDigitCh]

/-- A literal of the format string, matched case-insensitively (the
expression is compiled with `IGNORECASE`, so `T` also matches `t` and `Z`
also matches `z`). -/
def litCI (c : Char) : List Char → Option (List Char)
  | x :: rest => if x.toLower == c.toLower then some rest else none
  | _ => none

/-- The compiled pattern for `"%Y-%m-%dT%H:%M:%SZ"`, applied to the whole
input: four digits of `%Y`, the literal separators, the field alternations
above, and no unconverted trailing data. -/
def strptime_fields (cs : List Char) :
    Option (Nat × Nat × Nat × Nat × Nat × Nat) :=
  match cs with
  | y1 :: y2 :: y3 :: y4 :: rest =>
    if isDigitCh y1 && isDigitCh y2 && isDigitCh y3 && isDigitCh y4 then
      match litCI '-' rest with
      | none => none
      | some rest1 =>
        tryAlts (fun mo rest2 =>
          match litCI '-' rest2 with
          | none => none
          | some rest3 =>
            tryAlts (fun d rest4 =>
              match litCI 'T' rest4 with
              | none => none
              | some rest5 =>
                tryAlts (fun hh rest6 =>
                  match litCI ':' rest6 with
                  | none => none
                  | some rest7 =>
                    tryAlts (fun mi rest8 =>
                      match litCI ':' rest8 with
                      | none => none
                      | some rest9 =>
                        tryAlts (fun ss rest10 =>
                          match litCI 'Z' rest10 with
                          | none => none
                          | some [] =>
                            some (read4 y1 y2 y3 y4, mo, d, hh, mi, ss)
                          | some (_ :: _) => none)
                          secondAlts rest9)
                      minuteAlts rest7)
                  hourAlts rest5)
              dayAlts rest3)
          monthAlts rest1
    else none
  | _ => none

/-- Model of `datetime.strptime(s, "%Y-%m-%dT%H:%M:%SZ")` (line 124): the
compiled pattern must match the whole input, then the `datetime`
constructor range-checks the fields; either failure raises `ValueError`. -/
def strptime_newsapi (s : String) : Except PyError PyDateTime :=
  match strptime_fields s.data with
  | none => .error .valueError
  | some (y, mo, d, hh, mi, ss) => mkDateTime y mo d hh mi ss

/-! ## Articles as received from the API

An article is a JSON object; the program reads the keys below, some with
`article[k]` (raising `KeyError` when absent) and some with `article.get(k)`
(yielding `None` when absent).  Each field is `Option`-valued: `none` models
an absent key. -/

/-- The nested `article["source"]` object. -/
structure ArticleSource where
  name : Option String
deriving DecidableEq, Repr

/-- An article object, restricted to the keys the program reads. -/
structure Article where
  title : Option String
  description : Option String
  author : Option String
  source : Option ArticleSource
  publishedAt : Option String
  url : Option String
  content : Option String
deriving DecidableEq, Repr

/-! ## The Fetcher (`fetch_newsapi_data`, lines 56-79)

Line 58 builds the URL as
`"https://newsapi.org/v2/" + str + "?country=us&apiKey=" + api_key`,
where `str` is Python's built-in type object, not a string.  We model a
Python string expression operand as either a string value or the `str` type
object, and `+` as raising `TypeError` unless both operands are strings. -/

/-- An operand of the URL concatenation on line 58: a string value or the
built-in type object `str`. -/
inductive StrOperand
  | strVal (s : String)
  | strTypeObject
deriving DecidableEq, Repr

/-- Python `+` on line 58's operands: concatenation when both sides are
strings, otherwise `TypeError`. -/
def pyAdd : StrOperand → StrOperand → Except PyError StrOperand
  | .strVal a, .strVal b => .ok (.strVal (a ++ b))
  | _, _ => .error .typeError

/-- Line 58: `url = "https://newsapi.org/v2/" + str + "?country=us&apiKey=" + api_key`,
evaluated left to right. -/
def build_url (api_key : String) : Except PyError String := do
  let p1 ← pyAdd (.strVal "https://newsapi.org/v2/") .strTypeObject
  let p2 ← pyAdd p1 (.strVal "?country=us&apiKey=")
  let p3 ← pyAdd p2 (.strVal api_key)
  match p3 with
  | .strVal s => .ok s
  | .strTypeObject => .error .typeError

/-- Lines 59-65: the query-parameter dictionary. -/
def fetch_params (api_key query : String) (page_size : Nat) : List (String × String) :=
  [("q", query), ("pageSize", pyStr page_size), ("apiKey", api_key),
   ("sortBy", "publishedAt"), ("language", "en")]

/-- The JSON body of a NewsAPI response, restricted to the keys the program
reads (`status`, `message`, `articles`); `none` models an absent key. -/
structure ApiData where
  status : Option String
  message : Option String
  articles : Option (List Article)
deriving DecidableEq, Repr

/-- The outcome of the one `requests.get` call: either the request itself
fails (a `RequestException`) or a response arrives with a status code and a
JSON body. -/
inductive RequestOutcome
  | netFailure
  | response (statusCode : Nat) (data : ApiData)
deriving DecidableEq, Repr

/-- Model of `response.raise_for_status()`: raises `HTTPError` (a subclass of
`RequestException`) for a 4xx or 5xx status code. -/
def raise_for_status (code : Nat) : Except PyError Unit :=
  if 400 ≤ code then .error .httpError else .ok ()

/-- Lines 68-75: the body of the `try` block after the `requests.get` call.
`data["status"]` raises `KeyError` when the key is absent; a status other
than `"ok"` raises `ValueError`; otherwise the result is
`data.get("articles", [])`. -/
def fetch_try_inner (env : RequestOutcome) : Except PyError (List Article) :=
  match env with
  | .netFailure => .error .requestException
  | .response code data => do
    raise_for_status code
    match data.status with
    | none => .error .keyError
    | some st =>
      if st ≠ "ok" then .error .valueError
      else .ok (data.articles.getD [])

/-- Whether an exception is an instance of `requests.exceptions.RequestException`,
the only class the `except` clause on line 77 catches. -/
def is_requests_exception : PyError → Bool
  | .requestException => true
  | .httpError => true
  | _ => false

/-- Lines 67-79: the `try`/`except` statement.  A `RequestException` is
caught, logged, and turned into `[]`; every other exception propagates. -/
def fetch_try_block (env : RequestOutcome) : Except PyError (List Article) :=
  match fetch_try_inner env with
  | .ok arts => .ok arts
  | .error e => if is_requests_exception e then .ok [] else .error e

/-- The function `fetch_newsapi_data(api_key, query, page_size)`, lines 56-79.  The URL
construction on line 58 runs before the `try` block, so an exception there
propagates uncaught.  `env` is the outcome the HTTP layer would produce. -/
def fetch_newsapi_data (api_key query : String) (page_size : Nat)
    (env : RequestOutcome) : Except PyError (List Article) := do
  let _url ← build_url api_key
  let _params := fetch_params api_key query page_size
  fetch_try_block env

/-- Number of HTTP requests `fetch_newsapi_data` issues: `requests.get` on
line 68 runs only if the URL construction on line 58 succeeded. -/
def fetch_http_requests (api_key : String) : Nat :=
  match build_url api_key with
  | .error _ => 0
  | .ok _ => 1

/-! ## The Loader (`write_news_to_redshift`, lines 81-146)

The database is modelled as a table state.  The `INSERT` statement's
`ON CONFLICT (id) DO NOTHING` clause drops a row whose `id` already exists;
`cursor.executemany` applies the statement to the queued records in order;
`commit` makes the working state durable; `rollback` discards it. -/

/-- A row of the `news_articles` table, excluding `inserted_at` (which the
loader never supplies; the engine defaults it). -/
structure Row where
  id : String
  title : String
  author : Option String
  source_name : String
  published_at : PyDateTime
  url : String
  content : Option String
  description : Option String
deriving DecidableEq, Repr

/-- The persistent database state: whether `news_articles` exists, and its
rows in insertion order. -/
structure DbState where
  tableExists : Bool
  rows : List Row
deriving DecidableEq, Repr

/-- Whether the table already holds a row with primary key `i`. -/
def hasId (rows : List Row) (i : String) : Bool :=
  rows.any (fun x => x.id = i)

/-- One `INSERT ... ON CONFLICT (id) DO NOTHING`: appends the row unless its
`id` conflicts with an existing row, in which case nothing happens. -/
def insert_row (rows : List Row) (r : Row) : List Row :=
  if hasId rows r.id then rows else rows ++ [r]

/-- Model of `cursor.executemany(insert_query, records)`: the insert
statement applied to each queued record in order. -/
def executemany_insert (rows : List Row) (records : List Row) : List Row :=
  records.foldl insert_row rows

/-- Line 123: `article_id = hash(article["url"]) & 0xFFFFFFFF`.  Python's
string hash is the parameter `h`; masking a (possibly negative) Python int
with `0xFFFFFFFF` yields its residue modulo `2^32`. -/
def article_id (h : String → Int) (url : String) : Nat :=
  ((h url) % (2 ^ 32 : Int)).toNat

/-- Lines 122-135: build the record tuple for one article, in the source's
evaluation order: `article["url"]`, the hash, `article["publishedAt"]`,
`strptime`, then the tuple fields `str(article_id)`, `article["title"]`,
`article.get("author")`, `article["source"]["name"]`, `published_at`,
`article["url"]`, `article.get("content")`, `article.get("description")`. -/
def make_record (h : String → Int) (article : Article) : Except PyError Row :=
  match article.url with
  | none => .error .keyError
  | some url =>
    let aid := article_id h url
    match article.publishedAt with
    | none => .error .keyError
    | some ps =>
      match strptime_newsapi ps with
      | .error e => .error e
      | .ok published_at =>
        match article.title with
        | none => .error .keyError
        | some title =>
          match article.source with
          | none => .error .keyError
          | some src =>
            match src.name with
            | none => .error .keyError
            | some source_name =>
              .ok { id := pyStr aid, title := title, author := article.author,
                    source_name := source_name, published_at := published_at,
                    url := url, content := article.content,
                    description := article.description }

/-- Lines 121-135: the record-building loop, in input order.  An exception at
any article aborts the loop, discarding all queued records. -/
def build_records (h : String → Int) : List Article → Except PyError (List Row)
  | [] => .ok []
  | a :: rest =>
    match make_record h a with
    | .error e => .error e
    | .ok r =>
      match build_records h rest with
      | .error e => .error e
      | .ok rs => .ok (r :: rs)

/-- The environment of one load run: whether `psycopg2.connect` succeeds for
the supplied `redshift_config`. -/
structure RedshiftEnv where
  connectOk : Bool
deriving DecidableEq, Repr

/-- How one call of `write_news_to_redshift` terminates. -/
inductive LoadResult
  /-- Line 84-85: empty input, logged `"No articles to write."` and returned. -/
  | noArticles
  /-- Line 139: committed and logged `"Successfully inserted {n} articles."`. -/
  | success (count : Nat)
  /-- Lines 141-143: an exception was caught, logged as `"Redshift error"`,
  and the transaction rolled back; the call returns normally. -/
  | loggedError (e : PyError)
  /-- The call itself raises `e` to its caller. -/
  | raised (e : PyError)
deriving DecidableEq, Repr

/-- Observable outcome of one `write_news_to_redshift` call: the result, the
database state after the call, and the connection/transaction effects. -/
structure LoadOutcome where
  result : LoadResult
  db : DbState
  connAttempted : Bool
  connClosed : Bool
  commitCount : Nat
  rollbackCount : Nat
deriving DecidableEq, Repr

/-- The function `write_news_to_redshift(articles, redshift_config)`, lines 81-146.

* Lines 83-85: an empty input logs and returns before any connection.
* Lines 88-96: `psycopg2.connect`.  If it raises, the `except Exception`
  handler on line 141 catches it and calls `conn.rollback()` — but `conn`
  was never bound, so that raises `UnboundLocalError`; the `finally` block's
  `if conn:` (line 145) hits the same unbound local, so the call raises
  `UnboundLocalError` with nothing closed.
* Line 112: `CREATE TABLE IF NOT EXISTS` inside the transaction.
* Lines 121-138: build the records; any exception is caught on line 141,
  logged, and rolled back (discarding the transaction's work); otherwise
  `executemany` queues every record and `commit` makes the state durable,
  logging the count of queued records.
* Lines 144-146: on every path with `conn` bound the connection is closed. -/
def write_news_to_redshift (h : String → Int) (articles : List Article)
    (cfg : RedshiftEnv) (db : DbState) : LoadOutcome :=
  if articles.isEmpty then
    { result := .noArticles, db := db, connAttempted := false,
      connClosed := false, commitCount := 0, rollbackCount := 0 }
  else if cfg.connectOk = false then
    { result := .raised .unboundLocalError, db := db, connAttempted := true,
      connClosed := false, commitCount := 0, rollbackCount := 0 }
  else
    let working : DbState := { db with tableExists := true }
    match build_records h articles with
    | .error e =>
      { result := .loggedError e, db := db, connAttempted := true,
        connClosed := true, commitCount := 0, rollbackCount := 1 }
    | .ok records =>
      { result := .success records.length,
        db := { working with rows := executemany_insert working.rows records },
        connAttempted := true, connClosed := true,
        commitCount := 1, rollbackCount := 0 }

/-! ## Derived predicates and sample inputs -/

/-- Whether a `publishedAt` string matches the format the loader parses with
(`strptime` succeeds on it). -/
def timestamp_matches (s : String) : Bool :=
  match strptime_newsapi s with
  | .ok _ => true
  | .error _ => false

/-- A well-formed article: every field the loader reads unconditionally is
present, and the timestamp parses. -/
def wellFormedArticle (a : Article) : Bool :=
  a.url.isSome && a.title.isSome &&
  (match a.source with
   | some src => src.name.isSome
   | none => false) &&
  (match a.publishedAt with
   | some ps => timestamp_matches ps
   | none => false)

/-- The article lacks `source.name`: either no `"source"` key or a source
object with no `"name"` key. -/
def sourceNameMissing (a : Article) : Bool :=
  match a.source with
  | none => true
  | some src => src.name.isNone

/-- A sample stand-in for Python's per-process string hash. -/
def sampleHash (s : String) : Int := (s.length : Int)

/-- A well-formed sample article (the scenario from the specification). -/
def articleGood : Article :=
  { title := some "T1", description := none, author := none,
    source := some { name := some "S" },
    publishedAt := some "2024-01-01T00:00:00Z",
    url := some "https://a", content := none }

/-- A second well-formed sample article with a different URL. -/
def articleGood2 : Article :=
  { title := some "T2", description := some "d", author := some "au",
    source := some { name := some "S2" },
    publishedAt := some "2024-02-29T12:30:45Z",
    url := some "https://ab", content := some "c" }

/-- The exact fixed-width format `YYYY-MM-DDTHH:MM:SSZ` as the specification
words it: four digits, two-digit zero-padded fields, and the literal
separators.  Stated from the spec's words, to compare with the source's
lenient `strptime` pattern. -/
def matchesExactFormat (s : String) : Bool :=
  match s.data with
  | [y1, y2, y3, y4, c1, m1, m2, c2, d1, d2, t, h1, h2, c3, n1, n2, c4, s1, s2, z] =>
    isDigitCh y1 && isDigitCh y2 && isDigitCh y3 && isDigitCh y4 && c1 == '-' &&
    isDigitCh m1 && isDigitCh m2 && c2 == '-' && isDigitCh d1 && isDigitCh d2 &&
    t == 'T' && isDigitCh h1 && isDigitCh h2 && c3 == ':' &&
    isDigitCh n1 && isDigitCh n2 && c4 == ':' &&
    isDigitCh s1 && isDigitCh s2 && z == 'Z'
  | _ => false

/-- A sample article whose `publishedAt` does not match the expected format. -/
def articleBadTs : Article :=
  { title := some "T3", description := none, author := none,
    source := some { name := some "S3" },
    publishedAt := some "not-a-timestamp",
    url := some "https://abc", content := none }

/-- A sample article whose `publishedAt` is not in the exact fixed-width
format, yet parses under `strptime`'s lenient field matching. -/
def articleNonPadded : Article :=
  { title := some "T5", description := none, author := none,
    source := some { name := some "S5" },
    publishedAt := some "2024-1-1T0:0:0Z",
    url := some "https://abcde", content := none }

/-- A sample article with no `"source"` key. -/
def articleNoSource : Article :=
  { title := some "T4", description := none, author := none,
    source := none,
    publishedAt := some "2024-01-01T00:00:00Z",
    url := some "https://abcd", content := none }

/-- A response whose API-level status field is not `"ok"`. -/
def envBadStatus : RequestOutcome :=
  .response 200 { status := some "error", message := some "rate limited",
                  articles := some [] }

/-- A successful response carrying one article. -/
def envOkArticles : RequestOutcome :=
  .response 200 { status := some "ok", message := none,
                  articles := some [articleGood] }

/-- A successful response whose body has no `"articles"` key. -/
def envOkNoArticles : RequestOutcome :=
  .response 200 { status := some "ok", message := none, articles := none }

/-! ## Lemmas about the record loop -/

theorem make_record_error_of_bad_timestamp (h : String → Int) (a : Article)
    {s : String} (hps : a.publishedAt = some s)
    (hbad : timestamp_matches s = false) :
    ∃ e, make_record h a = Except.error e := by
  cases hu : a.url with
  | none => exact ⟨.keyError, by simp [make_record, hu]⟩
  | some u =>
    cases hst : strptime_newsapi s with
    | error e => exact ⟨e, by simp [make_record, hu, hps, hst]⟩
    | ok d =>
      unfold timestamp_matches at hbad
      rw [hst] at hbad
      simp at hbad

theorem make_record_error_of_missing_source (h : String → Int) (a : Article)
    (hm : sourceNameMissing a = true) :
    ∃ e, make_record h a = Except.error e := by
  cases hu : a.url with
  | none => exact ⟨.keyError, by simp [make_record, hu]⟩
  | some u =>
    cases hps : a.publishedAt with
    | none => exact ⟨.keyError, by simp [make_record, hu, hps]⟩
    | some ps =>
      cases hst : strptime_newsapi ps with
      | error e => exact ⟨e, by simp [make_record, hu, hps, hst]⟩
      | ok d =>
        cases ht : a.title with
        | none => exact ⟨.keyError, by simp [make_record, hu, hps, hst, ht]⟩
        | some t =>
          unfold sourceNameMissing at hm
          cases hsrc : a.source with
          | none => exact ⟨.keyError, by simp [make_record, hu, hps, hst, ht, hsrc]⟩
          | some src =>
            simp only [hsrc] at hm
            cases hn : src.name with
            | none =>
              exact ⟨.keyError, by simp [make_record, hu, hps, hst, ht, hsrc, hn]⟩
            | some nm => simp [hn] at hm

theorem build_records_error_of_mem (h : String → Int) {l : List Article}
    {a : Article} (ha : a ∈ l)
    (hbad : ∃ e0, make_record h a = Except.error e0) :
    ∃ e, build_records h l = Except.error e := by
  induction l with
  | nil => cases ha
  | cons b rest ih =>
    rcases List.mem_cons.mp ha with hb | hrest
    · subst hb
      obtain ⟨e0, he0⟩ := hbad
      refine ⟨e0, ?_⟩
      simp only [build_records]
      rw [he0]
    · cases hmb : make_record h b with
      | error e =>
        refine ⟨e, ?_⟩
        simp only [build_records]
        rw [hmb]
      | ok r =>
        obtain ⟨e, he⟩ := ih hrest
        refine ⟨e, ?_⟩
        simp only [build_records]
        rw [hmb, he]

theorem load_loggedError_of_bad_article (h : String → Int)
    (articles : List Article) (cfg : RedshiftEnv) (db : DbState) {a : Article}
    (hconn : cfg.connectOk = true) (ha : a ∈ articles)
    (hbad : ∃ e0, make_record h a = Except.error e0) :
    ∃ e, (write_news_to_redshift h articles cfg db).result = .loggedError e ∧
      (write_news_to_redshift h articles cfg db).db = db := by
  obtain ⟨e, he⟩ := build_records_error_of_mem h ha hbad
  have hE : articles.isEmpty = false := by
    cases articles with
    | nil => cases ha
    | cons b r => rfl
  exact ⟨e, by simp [write_news_to_redshift, hE, hconn, he]⟩

/-! ## Lemmas about the insert semantics -/

theorem executemany_insert_nil (rows : List Row) :
    executemany_insert rows [] = rows := rfl

theorem executemany_insert_cons (rows : List Row) (b : Row) (rest : List Row) :
    executemany_insert rows (b :: rest) =
      executemany_insert (insert_row rows b) rest := rfl

theorem hasId_append (rows1 rows2 : List Row) (i : String) :
    hasId (rows1 ++ rows2) i = (hasId rows1 i || hasId rows2 i) := by
  simp [hasId]

theorem hasId_insert_self (rows : List Row) (r : Row) :
    hasId (insert_row rows r) r.id = true := by
  unfold insert_row
  by_cases hc : hasId rows r.id = true
  · rw [if_pos hc]; exact hc
  · rw [if_neg hc, hasId_append]
    have h2 : hasId [r] r.id = true := by simp [hasId]
    simp [h2]

theorem hasId_insert_mono (rows : List Row) (r : Row) (i : String)
    (hi : hasId rows i = true) : hasId (insert_row rows r) i = true := by
  unfold insert_row
  by_cases hc : hasId rows r.id = true
  · rw [if_pos hc]; exact hi
  · rw [if_neg hc, hasId_append]
    simp [hi]

theorem hasId_executemany_mono (records : List Row) :
    ∀ (rows : List Row) (i : String), hasId rows i = true →
      hasId (executemany_insert rows records) i = true := by
  induction records with
  | nil => exact fun rows i hi => hi
  | cons r rest ih =>
    intro rows i hi
    rw [executemany_insert_cons]
    exact ih _ i (hasId_insert_mono rows r i hi)

theorem hasId_executemany_of_mem (records : List Row) :
    ∀ (rows : List Row) (r : Row), r ∈ records →
      hasId (executemany_insert rows records) r.id = true := by
  induction records with
  | nil => intro rows r hr; cases hr
  | cons b rest ih =>
    intro rows r hr
    rw [executemany_insert_cons]
    rcases List.mem_cons.mp hr with hb | hrest
    · rw [hb]
      exact hasId_executemany_mono rest _ _ (hasId_insert_self rows b)
    · exact ih _ r hrest

theorem insert_row_of_hasId {rows : List Row} {r : Row}
    (hc : hasId rows r.id = true) : insert_row rows r = rows := by
  simp [insert_row, hc]

theorem executemany_of_all_hasId {rows : List Row} {records : List Row}
    (hall : ∀ r ∈ records, hasId rows r.id = true) :
    executemany_insert rows records = rows := by
  induction records with
  | nil => rfl
  | cons b rest ih =>
    rw [executemany_insert_cons,
      insert_row_of_hasId (hall b (List.mem_cons_self b rest))]
    exact ih (fun r hr => hall r (List.mem_cons_of_mem b hr))

/-- Re-running the whole batch against the resulting table changes nothing:
every record's id is already present, so every insert hits the
`ON CONFLICT DO NOTHING` clause. -/
theorem executemany_insert_idem (rows : List Row) (records : List Row) :
    executemany_insert (executemany_insert rows records) records =
      executemany_insert rows records :=
  executemany_of_all_hasId (fun r hr => hasId_executemany_of_mem records rows r hr)

theorem executemany_length_of_fresh {rows : List Row} {records : List Row}
    (hp : records.Pairwise (fun r1 r2 => r1.id ≠ r2.id))
    (hf : ∀ r ∈ records, hasId rows r.id = false) :
    (executemany_insert rows records).length =
      rows.length + records.length := by
  induction records generalizing rows with
  | nil => simp [executemany_insert_nil]
  | cons b rest ih =>
    rw [executemany_insert_cons]
    have hb : insert_row rows b = rows ++ [b] := by
      simp [insert_row, hf b (List.mem_cons_self b rest)]
    rcases List.pairwise_cons.mp hp with ⟨hbr, hrest⟩
    have hf2 : ∀ r ∈ rest, hasId (rows ++ [b]) r.id = false := by
      intro r hr
      rw [hasId_append]
      have h1 := hf r (List.mem_cons_of_mem b hr)
      have h2 : hasId [b] r.id = false := by
        simp [hasId]
        exact hbr r hr
      simp [h1, h2]
    rw [hb, ih hrest hf2]
    simp
    omega

/-! ## Lemmas about successful record building -/

theorem make_record_ok_of_wf (h : String → Int) (a : Article)
    (hwf : wellFormedArticle a = true) :
    ∃ r u, make_record h a = Except.ok r ∧ a.url = some u ∧
      r.id = pyStr (article_id h u) := by
  unfold wellFormedArticle at hwf
  cases hu : a.url with
  | none => rw [hu] at hwf; simp at hwf
  | some u =>
    cases hps : a.publishedAt with
    | none => rw [hps] at hwf; simp at hwf
    | some ps =>
      cases hst : strptime_newsapi ps with
      | error e =>
        rw [hps] at hwf
        unfold timestamp_matches at hwf
        simp [hst] at hwf
      | ok d =>
        cases ht : a.title with
        | none => rw [ht] at hwf; simp at hwf
        | some t =>
          cases hsrc : a.source with
          | none => rw [hsrc] at hwf; simp at hwf
          | some src =>
            cases hn : src.name with
            | none => rw [hsrc] at hwf; simp [hn] at hwf
            | some nm =>
              refine ⟨{ id := pyStr (article_id h u), title := t,
                        author := a.author, source_name := nm,
                        published_at := d, url := u, content := a.content,
                        description := a.description }, u, ?_, rfl, rfl⟩
              simp [make_record, hu, hps, hst, ht, hsrc, hn]

theorem build_records_ok_of_wf (h : String → Int) (articles : List Article)
    (hwf : ∀ a ∈ articles, wellFormedArticle a = true) :
    ∃ records, build_records h articles = Except.ok records ∧
      List.Forall₂
        (fun a r => ∃ u, a.url = some u ∧ r.id = pyStr (article_id h u))
        articles records := by
  induction articles with
  | nil => exact ⟨[], rfl, List.Forall₂.nil⟩
  | cons a rest ih =>
    obtain ⟨r, u, hmr, hu, hid⟩ :=
      make_record_ok_of_wf h a (hwf a (List.mem_cons_self a rest))
    obtain ⟨rs, hbr, hfa⟩ := ih (fun b hb => hwf b (List.mem_cons_of_mem a hb))
    refine ⟨r :: rs, ?_, List.Forall₂.cons ⟨u, hu, hid⟩ hfa⟩
    simp only [build_records]
    rw [hmr, hbr]

theorem forall₂_exists_left_of_mem {α β : Type} {R : α → β → Prop}
    {l1 : List α} {l2 : List β} (hf : List.Forall₂ R l1 l2) {b : β}
    (hb : b ∈ l2) : ∃ a ∈ l1, R a b := by
  induction hf with
  | nil => cases hb
  | cons hR hf ih =>
    rcases List.mem_cons.mp hb with hbe | hbm
    · subst hbe
      exact ⟨_, List.mem_cons_self _ _, hR⟩
    · obtain ⟨a, ha, hr⟩ := ih hbm
      exact ⟨a, List.mem_cons_of_mem _ ha, hr⟩

theorem records_pairwise_of_articles (h : String → Int)
    {articles : List Article} {records : List Row}
    (hfa : List.Forall₂
      (fun a r => ∃ u, a.url = some u ∧ r.id = pyStr (article_id h u))
      articles records)
    (hp : articles.Pairwise (fun a b => ∀ u v, a.url = some u →
      b.url = some v → article_id h u ≠ article_id h v)) :
    records.Pairwise (fun r1 r2 => r1.id ≠ r2.id) := by
  induction hfa with
  | nil => exact List.Pairwise.nil
  | cons hR hfa ih =>
    rcases List.pairwise_cons.mp hp with ⟨hhead, htail⟩
    refine List.Pairwise.cons ?_ (ih htail)
    intro r2 hr2
    obtain ⟨u, hu, hid⟩ := hR
    obtain ⟨a2, ha2, u2, hu2, hid2⟩ := forall₂_exists_left_of_mem hfa hr2
    rw [hid, hid2]
    intro hcontra
    exact hhead a2 ha2 u u2 hu hu2 (pyStr_injective hcontra)

/-! ## Inversion of a successful load -/

theorem load_success_inversion (h : String → Int) (articles : List Article)
    (cfg : RedshiftEnv) (db : DbState) (n : Nat)
    (hs : (write_news_to_redshift h articles cfg db).result = .success n) :
    articles.isEmpty = false ∧ cfg.connectOk = true ∧
    ∃ records, build_records h articles = .ok records ∧ records.length = n ∧
      write_news_to_redshift h articles cfg db =
        { result := .success n,
          db := { tableExists := true,
                  rows := executemany_insert db.rows records },
          connAttempted := true, connClosed := true,
          commitCount := 1, rollbackCount := 0 } := by
  cases hE : articles.isEmpty with
  | true => simp [write_news_to_redshift, hE] at hs
  | false =>
    cases hC : cfg.connectOk with
    | false => simp [write_news_to_redshift, hE, hC] at hs
    | true =>
      cases hb : build_records h articles with
      | error e => simp [write_news_to_redshift, hE, hC, hb] at hs
      | ok records =>
        have hlen : records.length = n := by
          simpa [write_news_to_redshift, hE, hC, hb] using hs
        exact ⟨rfl, rfl, records, rfl, hlen,
          by simp [write_news_to_redshift, hE, hC, hb, hlen]⟩

/-! ## The claims -/

/-- C1.  The claim says that on any fetch error — network failure, non-2xx
status, or an API status field other than `"ok"` — `fetch_newsapi_data` does
not raise but logs and returns an empty sequence.  The code contradicts
this: at a run whose response has `status = "error"`, the call raises
`TypeError` from the URL construction on line 58; and the `try`-block logic
alone would raise the `ValueError` from line 73 uncaught, because the
`except` clause only catches `RequestException`. -/
theorem fetch_error_is_raised_not_fail_open :
    fetch_newsapi_data "14411238a52d4395b1f5a73c0ab7dfaa" "AI" 100 envBadStatus =
      Except.error PyError.typeError ∧
    fetch_try_block envBadStatus = Except.error PyError.valueError := by
  exact ⟨rfl, rfl⟩

/-- C2.  For every input, `fetch_newsapi_data` raises `TypeError` while
building the URL (line 58 concatenates the built-in type object `str`),
before issuing any HTTP request; the exception arises outside the `try`
block, so it always propagates to the caller. -/
theorem fetch_always_raises_typeError (api_key query : String)
    (page_size : Nat) (env : RequestOutcome) :
    fetch_newsapi_data api_key query page_size env =
      Except.error PyError.typeError ∧
    fetch_http_requests api_key = 0 :=
  ⟨rfl, rfl⟩

/-- Counterexample to C3.  The claim says any `publishedAt` not matching the
exact format `YYYY-MM-DDTHH:MM:SSZ` rolls the whole batch back with zero
rows persisted.  But `strptime` is lenient: `"2024-1-1T0:0:0Z"` does not
match the exact fixed-width format, yet the pattern accepts it, the loader
builds its record, commits, and persists one row — no rollback. -/
theorem nonpadded_timestamp_commits_batch :
    matchesExactFormat "2024-1-1T0:0:0Z" = false ∧
    strptime_newsapi "2024-1-1T0:0:0Z" =
      Except.ok { year := 2024, month := 1, day := 1,
                  hour := 0, minute := 0, second := 0 } ∧
    (write_news_to_redshift sampleHash [articleNonPadded] ⟨true⟩
      ⟨false, []⟩).result = LoadResult.success 1 ∧
    (write_news_to_redshift sampleHash [articleNonPadded] ⟨true⟩
      ⟨false, []⟩).db.rows.length = 1 ∧
    (write_news_to_redshift sampleHash [articleNonPadded] ⟨true⟩
      ⟨false, []⟩).rollbackCount = 0 :=
  ⟨rfl, rfl, rfl, rfl, rfl⟩

/-- C3 as amended.  If any article in the batch carries a `publishedAt`
string that the loader's parser — `strptime` with format
`%Y-%m-%dT%H:%M:%SZ` — rejects, the whole batch is rolled back: the call
ends in the logged-error state and the database is unchanged, no matter how
many earlier articles were well-formed.  (Failing the exact fixed-width
format is not sufficient for a rollback: `strptime`'s lenient field
matching also accepts some non-conforming strings, which commit.) -/
theorem bad_timestamp_rolls_back_whole_batch (h : String → Int)
    (articles : List Article) (cfg : RedshiftEnv) (db : DbState)
    (a : Article) (s : String)
    (hconn : cfg.connectOk = true) (ha : a ∈ articles)
    (hps : a.publishedAt = some s) (hbad : timestamp_matches s = false) :
    ∃ e, (write_news_to_redshift h articles cfg db).result = .loggedError e ∧
      (write_news_to_redshift h articles cfg db).db = db :=
  load_loggedError_of_bad_article h articles cfg db hconn ha
    (make_record_error_of_bad_timestamp h a hps hbad)

/-- Witness for C3: a well-formed article followed by one whose timestamp
does not parse; zero rows are persisted. -/
theorem bad_timestamp_rolls_back_whole_batch_witness :
    timestamp_matches "not-a-timestamp" = false ∧
    wellFormedArticle articleGood = true ∧
    (∃ e, (write_news_to_redshift sampleHash [articleGood, articleBadTs]
        ⟨true⟩ ⟨false, []⟩).result = .loggedError e ∧
      (write_news_to_redshift sampleHash [articleGood, articleBadTs]
        ⟨true⟩ ⟨false, []⟩).db = ⟨false, []⟩) :=
  ⟨rfl, rfl, bad_timestamp_rolls_back_whole_batch sampleHash _ _ _
    articleBadTs "not-a-timestamp" rfl (by simp) rfl rfl⟩

/-- C4.  Running the loader again with the identical article set on the
state the first successful run produced changes nothing: the second run
re-reports the same count, and the table is exactly the one the first run
left (0 additional rows, no row overwritten), because every insert hits the
`ON CONFLICT (id) DO NOTHING` clause. -/
theorem second_identical_run_inserts_nothing (h : String → Int)
    (articles : List Article) (cfg : RedshiftEnv) (db : DbState) (n : Nat)
    (h1 : (write_news_to_redshift h articles cfg db).result = .success n) :
    write_news_to_redshift h articles cfg
        (write_news_to_redshift h articles cfg db).db =
      { result := .success n,
        db := (write_news_to_redshift h articles cfg db).db,
        connAttempted := true, connClosed := true,
        commitCount := 1, rollbackCount := 0 } := by
  obtain ⟨hE, hC, records, hb, hlen, ho1⟩ :=
    load_success_inversion h articles cfg db n h1
  rw [ho1]
  simp [write_news_to_redshift, hE, hC, hb, executemany_insert_idem, hlen]

/-- Witness for C4: one article loaded twice; the second run leaves the
table unchanged. -/
theorem second_identical_run_inserts_nothing_witness :
    (write_news_to_redshift sampleHash [articleGood] ⟨true⟩
      ⟨false, []⟩).result = LoadResult.success 1 ∧
    write_news_to_redshift sampleHash [articleGood] ⟨true⟩
        (write_news_to_redshift sampleHash [articleGood] ⟨true⟩
          ⟨false, []⟩).db =
      { result := .success 1,
        db := (write_news_to_redshift sampleHash [articleGood] ⟨true⟩
          ⟨false, []⟩).db,
        connAttempted := true, connClosed := true,
        commitCount := 1, rollbackCount := 0 } :=
  ⟨rfl, second_identical_run_inserts_nothing sampleHash [articleGood]
    ⟨true⟩ ⟨false, []⟩ 1 rfl⟩

/-- C5.  The stored id is a pure function of the article URL: equal URLs
give equal ids; the id is the URL's hash truncated to 32 bits (so it is
below `2^32`); and when the truncated hashes differ (no collision), the
stored string ids differ as well. -/
theorem derived_id_pure_32bit_hash (h : String → Int) (u1 u2 : String) :
    (u1 = u2 → pyStr (article_id h u1) = pyStr (article_id h u2)) ∧
    article_id h u1 = ((h u1) % (2 ^ 32 : Int)).toNat ∧
    article_id h u1 < 2 ^ 32 ∧
    (article_id h u1 ≠ article_id h u2 →
      pyStr (article_id h u1) ≠ pyStr (article_id h u2)) := by
  refine ⟨fun he => by rw [he], rfl, ?_,
    fun hne hcontra => hne (pyStr_injective hcontra)⟩
  have e1 : ((2 : Int) ^ 32) = 4294967296 := by norm_num
  have e2 : (2 ^ 32 : Nat) = 4294967296 := by norm_num
  unfold article_id
  rw [e1, e2]
  have h1 : 0 ≤ (h u1) % (4294967296 : Int) :=
    Int.emod_nonneg _ (by norm_num)
  have h2 : (h u1) % (4294967296 : Int) < 4294967296 :=
    Int.emod_lt_of_pos _ (by norm_num)
  omega

/-- Witness for C5: with the sample hash, equal URLs give equal ids and two
URLs with distinct truncated hashes give distinct string ids. -/
theorem derived_id_pure_32bit_hash_witness :
    pyStr (article_id sampleHash "https://a") =
      pyStr (article_id sampleHash "https://a") ∧
    article_id sampleHash "https://a" ≠ article_id sampleHash "https://ab" ∧
    pyStr (article_id sampleHash "https://a") ≠
      pyStr (article_id sampleHash "https://ab") :=
  ⟨(derived_id_pure_32bit_hash sampleHash "https://a" "https://a").1 rfl,
   by decide,
   (derived_id_pure_32bit_hash sampleHash "https://a" "https://ab").2.2.2
     (by decide)⟩

/-- Counterexample to C6.  The claim says a missing required field (e.g. no
`source.name`) propagates out of `write_news_to_redshift` as an unrecovered
failure.  In fact the `except Exception` clause on line 141 catches the
`KeyError`: at this concrete input the call ends in the logged-error state
and does not raise. -/
theorem missing_source_is_caught_inside_loader :
    (write_news_to_redshift sampleHash [articleNoSource] ⟨true⟩
      ⟨false, []⟩).result = LoadResult.loggedError PyError.keyError ∧
    (write_news_to_redshift sampleHash [articleNoSource] ⟨true⟩
      ⟨false, []⟩).result ≠ LoadResult.raised PyError.keyError := by
  exact ⟨rfl, by decide⟩

/-- C6 as amended.  An article lacking `source.name` still aborts the whole
batch (rollback, zero rows persisted), but the `KeyError` is caught by the
loader's blanket `except Exception` handler, logged, and the call returns
normally instead of propagating the failure to its caller. -/
theorem missing_source_aborts_batch_without_raising (h : String → Int)
    (articles : List Article) (cfg : RedshiftEnv) (db : DbState) (a : Article)
    (hconn : cfg.connectOk = true) (ha : a ∈ articles)
    (hm : sourceNameMissing a = true) :
    ∃ e, (write_news_to_redshift h articles cfg db).result = .loggedError e ∧
      (write_news_to_redshift h articles cfg db).db = db :=
  load_loggedError_of_bad_article h articles cfg db hconn ha
    (make_record_error_of_missing_source h a hm)

/-- Witness for the amended C6: a well-formed article followed by one with
no `"source"` key; the batch aborts with a logged error and no rows. -/
theorem missing_source_aborts_batch_without_raising_witness :
    sourceNameMissing articleNoSource = true ∧
    (∃ e, (write_news_to_redshift sampleHash [articleGood, articleNoSource]
        ⟨true⟩ ⟨false, []⟩).result = .loggedError e ∧
      (write_news_to_redshift sampleHash [articleGood, articleNoSource]
        ⟨true⟩ ⟨false, []⟩).db = ⟨false, []⟩) :=
  ⟨rfl, missing_source_aborts_batch_without_raising sampleHash _ _ _
    articleNoSource rfl (by simp) rfl⟩

/-- C7.  The claim says the connection is released on every path and the
routine never raises during cleanup.  On the connection-failure path the
code instead raises `UnboundLocalError`: the `except` handler's
`conn.rollback()` and the `finally` block's `if conn:` both reference the
never-bound local `conn`.  This evaluates the loader at such a failing
input: the call raises and no close happens. -/
theorem connect_failure_raises_unboundLocalError :
    write_news_to_redshift sampleHash [articleGood] ⟨false⟩ ⟨false, []⟩ =
      { result := .raised .unboundLocalError, db := ⟨false, []⟩,
        connAttempted := true, connClosed := false,
        commitCount := 0, rollbackCount := 0 } := rfl

/-- C8.  On an empty input sequence the loader short-circuits: it returns
the nothing-to-write result without attempting a connection and without
touching the table. -/
theorem empty_input_short_circuits (h : String → Int) (cfg : RedshiftEnv)
    (db : DbState) :
    write_news_to_redshift h [] cfg db =
      { result := .noArticles, db := db, connAttempted := false,
        connClosed := false, commitCount := 0, rollbackCount := 0 } := rfl

/-- C9.  For a batch of N well-formed articles with pairwise distinct URLs
whose truncated hashes do not collide and whose ids are not already in the
table, the loader reports count N, commits exactly once, and the table
grows by exactly N rows. -/
theorem loader_inserts_exactly_N_wellformed_articles (h : String → Int)
    (articles : List Article) (cfg : RedshiftEnv) (db : DbState)
    (hconn : cfg.connectOk = true)
    (hne : articles ≠ [])
    (hwf : ∀ a ∈ articles, wellFormedArticle a = true)
    (hnodup : articles.Pairwise (fun a b => a.url ≠ b.url))
    (hnocoll : articles.Pairwise (fun a b => ∀ u v, a.url = some u →
      b.url = some v → article_id h u ≠ article_id h v))
    (hfresh : ∀ a ∈ articles, ∀ u, a.url = some u →
      hasId db.rows (pyStr (article_id h u)) = false) :
    (write_news_to_redshift h articles cfg db).result =
      .success articles.length ∧
    (write_news_to_redshift h articles cfg db).commitCount = 1 ∧
    (write_news_to_redshift h articles cfg db).db.rows.length =
      db.rows.length + articles.length := by
  obtain ⟨records, hb, hfa⟩ := build_records_ok_of_wf h articles hwf
  have hlen : records.length = articles.length := hfa.length_eq.symm
  have hpw : records.Pairwise (fun r1 r2 => r1.id ≠ r2.id) :=
    records_pairwise_of_articles h hfa hnocoll
  have hfr : ∀ r ∈ records, hasId db.rows r.id = false := by
    intro r hr
    obtain ⟨a, ha, u, hu, hid⟩ := forall₂_exists_left_of_mem hfa hr
    rw [hid]
    exact hfresh a ha u hu
  have hE : articles.isEmpty = false := by
    cases articles with
    | nil => exact absurd rfl hne
    | cons b r => rfl
  have hexec := executemany_length_of_fresh hpw hfr
  refine ⟨?_, ?_, ?_⟩ <;>
    simp [write_news_to_redshift, hE, hconn, hb, hlen, hexec]

/-- Witness for C9: two well-formed articles with distinct URLs and distinct
truncated hashes loaded into an empty table: count 2, one commit, 2 rows. -/
theorem loader_inserts_exactly_N_wellformed_articles_witness :
    (write_news_to_redshift sampleHash [articleGood, articleGood2] ⟨true⟩
      ⟨false, []⟩).result =
      .success ([articleGood, articleGood2] : List Article).length ∧
    (write_news_to_redshift sampleHash [articleGood, articleGood2] ⟨true⟩
      ⟨false, []⟩).commitCount = 1 ∧
    (write_news_to_redshift sampleHash [articleGood, articleGood2] ⟨true⟩
      ⟨false, []⟩).db.rows.length =
      (DbState.mk false []).rows.length +
        ([articleGood, articleGood2] : List Article).length := by
  apply loader_inserts_exactly_N_wellformed_articles
  · rfl
  · simp
  · intro a ha
    rcases List.mem_cons.mp ha with h1 | h2
    · rw [h1]; rfl
    · rcases List.mem_cons.mp h2 with h3 | h4
      · rw [h3]; rfl
      · cases h4
  · refine List.pairwise_cons.mpr ⟨?_, List.pairwise_singleton _ _⟩
    intro b hb
    have hb2 : b = articleGood2 := by simpa using hb
    subst hb2
    decide
  · refine List.pairwise_cons.mpr ⟨?_, List.pairwise_singleton _ _⟩
    intro b hb
    have hb2 : b = articleGood2 := by simpa using hb
    subst hb2
    intro u v hu hv
    simp [articleGood] at hu
    simp [articleGood2] at hv
    subst hu
    subst hv
    decide
  · intro a ha u hu
    rfl

/-- C10.  The claim says a successful fetch returns exactly the list under
the `"articles"` key, with a missing key yielding `[]`.  The response
handling on line 75 does implement exactly that — shown here on the
`try`-block logic — but the success path is unreachable: the call itself
raises `TypeError` on line 58 before any request is made. -/
theorem success_path_returns_articles_but_is_unreachable :
    fetch_try_block envOkArticles = Except.ok [articleGood] ∧
    fetch_try_block envOkNoArticles = Except.ok [] ∧
    fetch_newsapi_data "14411238a52d4395b1f5a73c0ab7dfaa" "technology" 100
      envOkArticles = Except.error PyError.typeError :=
  ⟨rfl, rfl, rfl⟩

end AwsBatch
